import Mathlib

/-!
Verification development for the `terna-py` client library
(`src/terna/terna.py`).  The Python client is shallowly embedded:

* wall-clock datetimes are `Int` values (minutes for the timestamp
  normalizer `_adjust_tz`, seconds for the token-expiry bookkeeping);
* the monotonic clock (`time.monotonic()`) is modelled by `ℚ`;
* HTTP traffic is an explicit parameter: the outcome a call would have
  (a response, or a transport failure) is passed in, and each embedded
  operation reports whether/when it dispatched a network call;
* Python exceptions become `Except` values;
* a pandas `DataFrame` is a column-oriented `Frame` together with its
  index; `pandas.Timestamp.tz_localize` around a single fall-back
  daylight-saving transition is modelled by `TZ.localizeUTC`.
-/

namespace Terna

/-- Seconds that must separate two outbound HTTP calls
(`RATE_LIMIT = 1.1` in the source). -/
def rateLimit : ℚ := 11 / 10

/-- JSON cell values appearing in a row of the data array.  `date t`
stands for a datetime string that `pd.to_datetime` parses to the naive
timestamp `t` (minutes since an arbitrary epoch). -/
inductive JValue where
  | null : JValue
  | str : String → JValue
  | num : Int → JValue
  | date : Int → JValue
deriving DecidableEq, Repr

/-- A row object of the data array: an ordered mapping from column
name to value, as produced by `pd.json_normalize`. -/
abbrev Row := List (String × JValue)

/-- A top-level JSON payload: an ordered mapping from key to an array
of row objects.  The status key `result` carries no rows; its value is
never inspected by the code, only its presence. -/
abbrev Payload := List (String × List Row)

/-- A timezone-aware timestamp as produced by
`tz_localize(tz, ambiguous=flag)`: the naive wall-clock value (minutes)
together with the `ambiguous=` flag that was passed. -/
structure LocalizedDT where
  wall : Int
  dstFlag : Bool
deriving DecidableEq, Repr

/-- Model of a timezone around a single fall-back daylight-saving
transition: the standard- and DST-offsets from UTC (minutes), and the
first wall-clock minute of the ambiguous window.  Wall times `w` with
`ambStart ≤ w < ambStart + (dstOffset - stdOffset)` occur twice. -/
structure TZ where
  stdOffset : Int
  dstOffset : Int
  ambStart : Int
  std_lt_dst : stdOffset < dstOffset

/-- A wall-clock time that occurs twice during the fall-back
transition of `z`. -/
def TZ.isAmbiguous (z : TZ) (w : Int) : Prop :=
  z.ambStart ≤ w ∧ w < z.ambStart + (z.dstOffset - z.stdOffset)

instance (z : TZ) (w : Int) : Decidable (z.isAmbiguous w) :=
  inferInstanceAs (Decidable (_ ∧ _))

/-- Model of `tz_localize`: the UTC instant (minutes) denoted by wall
time `w` when the `ambiguous=` flag is `dstFlag`.  For an ambiguous
wall time, `dstFlag = true` selects the DST offset — the earlier of
the two instants — and `dstFlag = false` the standard offset (the
later one); outside the ambiguous window the flag is irrelevant. -/
def TZ.localizeUTC (z : TZ) (w : Int) (dstFlag : Bool) : Int :=
  if z.isAmbiguous w then
    w - (if dstFlag then z.dstOffset else z.stdOffset)
  else if w < z.ambStart then w - z.dstOffset
  else w - z.stdOffset

/-- The UTC instant of a localized timestamp under the model `z`;
this is the key by which pandas compares tz-aware timestamps. -/
def TZ.instantOf (z : TZ) (l : LocalizedDT) : Int :=
  z.localizeUTC l.wall l.dstFlag

/-- Embedding of `TernaPandasClient._adjust_tz` (terna.py lines
408-414), for a naive datetime `dt` in minutes:
`delta = dt.minute % 15`; if `delta == 0` localize with
`ambiguous=True`, else subtract `delta + 15*(4-delta)` minutes and
localize with `ambiguous=False`. -/
def adjust_tz (dt : Int) : LocalizedDT :=
  let delta := dt % 60 % 15
  if delta = 0 then
    ⟨dt, true⟩
  else
    ⟨dt - (delta + 15 * (4 - delta)), false⟩

/-- The mutable state of a `TernaPandasClient` instance: credentials,
the cached token and its absolute expiry (`datetime` seconds), and the
monotonic time of the last dispatched request. -/
structure ClientState where
  api_key : String
  api_secret : String
  token : Option String
  token_expiration : Int
  time_of_last_request : ℚ
deriving DecidableEq, Repr

/-- Python exceptions raised (or errors returned) by the client. -/
inductive PyErr where
  | httpError : Nat → PyErr
  | connectionError : PyErr
  | indexError : PyErr
  | valueError : PyErr
  | typeError : PyErr
deriving DecidableEq, Repr

/-- The JSON body of a token-exchange response, as read by
`_request_token`: the HTTP status plus `.get('access_token')` and
`.get('expires_in')`. -/
structure HttpResponse where
  status_code : Nat
  access_token : Option String
  expires_in : Option Int
deriving DecidableEq, Repr

/-- Embedding of the rate-limiter arithmetic shared by
`_request_token` and `_base_request` (lines 96-100 and 143-147): if
the time elapsed since the last dispatched call is below `rateLimit`,
sleep for the difference; the returned value is the monotonic time at
which the network call is dispatched. -/
def throttleSend (last now : ℚ) : ℚ :=
  if now - last < rateLimit then now + (rateLimit - (now - last)) else now

/-- Python truthiness of `self.token` in the guard on line 82:
`None` and the empty string are falsy. -/
def tokenTruthy : Option String → Bool
  | none => false
  | some s => decide (s ≠ "")

/-- Result of one `_request_token` call: the returned value (or the
exception raised), the client state afterwards, and the monotonic
time at which a POST was dispatched (`none` when no network call was
made). -/
structure TokenOut where
  result : Except PyErr (Option String)
  state : ClientState
  sendTime : Option ℚ
deriving Repr

/-- Embedding of `TernaPandasClient._request_token` (lines 71-120).
`nowDT` is `datetime.datetime.now()` in seconds, `nowM` the monotonic
clock when the call starts, `dur` the duration of the network call,
and `post` the outcome the POST would have (`Except.error` models a
transport failure raised by `session.post` itself).  Mirrors the
source: the cached-token guard on line 82, the throttle, the
monotonic-time record after the call, `raise_for_status` (raises for
statuses 400-599), and the 200-branch that parses `access_token` and
`expires_in` and replaces the cached credential. -/
def request_token (st : ClientState) (nowDT : Int) (nowM dur : ℚ)
    (post : Except Unit HttpResponse) : TokenOut :=
  if st.token_expiration + 5 < nowDT ∧ tokenTruthy st.token then
    ⟨.ok st.token, st, none⟩
  else
    let send := throttleSend st.time_of_last_request nowM
    match post with
    | .error _ => ⟨.error .connectionError, st, some send⟩
    | .ok r =>
      let st1 := { st with time_of_last_request := send + dur }
      if 400 ≤ r.status_code ∧ r.status_code < 600 then
        ⟨.error (.httpError r.status_code), st1, some send⟩
      else if r.status_code = 200 then
        match r.expires_in with
        | none => ⟨.error .typeError, st1, some send⟩
        | some e =>
          ⟨.ok r.access_token,
            { st1 with token := r.access_token, token_expiration := nowDT + e },
            some send⟩
      else
        ⟨.ok none, st1, some send⟩

/-- Cell lookup in a row: `df` access to column `c` of row `r`;
a missing key is pandas `NaN`, modelled by `JValue.null`. -/
def getCell (r : Row) (c : String) : JValue :=
  ((r.find? (fun kv => kv.1 == c)).map Prod.snd).getD .null

/-- Columns of `pd.json_normalize(rows)`: the union of the rows' keys
in order of first appearance. -/
def colsOf (rows : List Row) : List String :=
  rows.foldl (fun acc r => r.foldl
    (fun a kv => if kv.1 ∈ a then a else a ++ [kv.1]) acc) []

/-- The naive timestamp `pd.to_datetime` extracts from the `Date`
cell of a row, when that cell is a parseable datetime. -/
def rowDate (r : Row) : Option Int :=
  match getCell r "Date" with
  | .date t => some t
  | _ => none

/-- Sort key used by `df.sort_values(by='Date')` after the `Date`
column has been mapped through `_adjust_tz`: tz-aware timestamps
compare by their UTC instant. -/
def dateKeyD (z : TZ) (r : Row) : Int :=
  z.instantOf (adjust_tz ((rowDate r).getD 0))

/-- Whether `pd.to_datetime(df['Date'])` succeeds: every row's
`Date` cell parses to a naive timestamp. -/
def datesOk (rows : List Row) : Bool :=
  rows.all (fun r => (rowDate r).isSome)

/-- Row ordering used by `df.sort_values(by='Date')`: compare the
reconstructed localized timestamps by UTC instant. -/
def rowLE (z : TZ) (a b : Row) : Prop :=
  dateKeyD z a ≤ dateKeyD z b

instance (z : TZ) : DecidableRel (rowLE z) :=
  fun a b => inferInstanceAs (Decidable (dateKeyD z a ≤ dateKeyD z b))

instance (z : TZ) : IsTotal Row (rowLE z) :=
  ⟨fun a b => Int.le_total (dateKeyD z a) (dateKeyD z b)⟩

instance (z : TZ) : IsTrans Row (rowLE z) :=
  ⟨fun _ _ _ hab hbc => le_trans hab hbc⟩

/-- An entry of a `DataFrame` index: the default `RangeIndex`, a
reconstructed localized timestamp, or a `Year` value. -/
inductive IndexVal where
  | default : Nat → IndexVal
  | ts : LocalizedDT → IndexVal
  | year : JValue → IndexVal
deriving DecidableEq, Repr

/-- A pandas `DataFrame`, column-oriented: the named columns in order
together with the row index. -/
structure Frame where
  cols : List (String × List JValue)
  index : List IndexVal
deriving DecidableEq, Repr

/-- Decimal-digit accumulator for `parseNumStr`. -/
def parseDigitsAux : List Char → Nat → Option Nat
  | [], acc => some acc
  | c :: rest, acc =>
    if c.isDigit then parseDigitsAux rest (acc * 10 + (c.toNat - 48))
    else none

/-- Model of the numeric-string parsing done by `pd.to_numeric`: an
optional minus sign followed by decimal digits (integer literals;
fractional literals are out of scope of the claims). -/
def parseNumStr (s : String) : Option Int :=
  match s.data with
  | [] => none
  | '-' :: rest =>
    if rest = [] then none
    else (parseDigitsAux rest 0).map (fun n => -(n : Int))
  | l => (parseDigitsAux l 0).map (fun n => (n : Int))

/-- One cell under `pd.to_numeric`: numbers pass through, an
integer-literal string parses to a number, `NaN` passes through, and
anything else raises (`none`). -/
def coerceCell : JValue → Option JValue
  | .num n => some (.num n)
  | .str s => (parseNumStr s).map JValue.num
  | .null => some .null
  | _ => none

/-- `pd.to_numeric` over a whole column: all-or-nothing — it raises
(`none`) as soon as any cell fails to convert. -/
def traverseCells : List JValue → Option (List JValue)
  | [] => some []
  | v :: t =>
    match coerceCell v, traverseCells t with
    | some c, some cs => some (c :: cs)
    | _, _ => none

/-- Embedding of the per-column coercion loop (lines 174-178):
`df[col] = pd.to_numeric(df[col])` inside `try`; a `ValueError` or
`TypeError` on any cell leaves the whole column unchanged. -/
def coerceCol (cells : List JValue) : List JValue :=
  match traverseCells cells with
  | some cs => cs
  | none => cells

/-- Embedding of the response transformation in the 200-branch of
`_base_request` (lines 158-181): if the status key `result` is
absent, return `None`; otherwise pop it, take the first remaining
key's row array, flatten it, and if a `Date` column exists map it
through `_adjust_tz` (zone model `z`), sort rows by the localized
timestamp, index by it and drop the column; else index by `Year` when
present; finally attempt numeric coercion per column.  `list(
json.keys())[0]` on an empty remainder raises an `IndexError`, and an
unparseable or missing `Date` cell makes `pd.to_datetime` raise. -/
def transform (z : TZ) (p : Payload) : Except PyErr (Option Frame) :=
  if "result" ∈ p.map Prod.fst then
    match p.filter (fun kv => kv.1 != "result") with
    | [] => .error .indexError
    | (_, rows) :: _ =>
      let cols := colsOf rows
      if "Date" ∈ cols then
        if datesOk rows then
          let sorted := List.insertionSort (rowLE z) rows
          let keep := cols.filter (fun c => c != "Date")
          .ok (some ⟨keep.map (fun c => (c, coerceCol (sorted.map (fun r => getCell r c)))),
                     sorted.map (fun r => IndexVal.ts (adjust_tz ((rowDate r).getD 0)))⟩)
        else .error .valueError
      else if "Year" ∈ cols then
        let keep := cols.filter (fun c => c != "Year")
        .ok (some ⟨keep.map (fun c => (c, coerceCol (rows.map (fun r => getCell r c)))),
                   rows.map (fun r => IndexVal.year (getCell r "Year"))⟩)
      else
        .ok (some ⟨cols.map (fun c => (c, coerceCol (rows.map (fun r => getCell r c)))),
                   (List.range rows.length).map IndexVal.default⟩)
  else
    .ok none

/-- Outcome the data GET would have: a transport failure raised by
`session.get`, or a response with its status and JSON body. -/
inductive GetOutcome where
  | netFail : GetOutcome
  | resp : Nat → Payload → GetOutcome

/-- The status codes singled out for error logging (lines 107 and
154). -/
def retryCodes : List Nat := [429, 500, 502, 503, 504]

/-- Result of the network-and-transform part of `_base_request`: the
returned table (or exception), the client state afterwards, the
monotonic dispatch time of the GET, and the status codes written to
the error log. -/
structure FetchOut where
  result : Except PyErr (Option Frame)
  state : ClientState
  sendTime : Option ℚ
  logged : List Nat
deriving Repr

/-- Embedding of `_base_request` after token acquisition (lines
142-184): throttle, dispatch the GET, record the monotonic time,
`raise_for_status` (raises for 400-599, logging first for the codes
in `retryCodes`), feed the parsed body to `transform` on status 200,
and log-and-return-`None` on any other non-raising status. -/
def base_request_fetch (z : TZ) (st : ClientState) (nowM dur : ℚ)
    (out : GetOutcome) : FetchOut :=
  let send := throttleSend st.time_of_last_request nowM
  match out with
  | .netFail => ⟨.error .connectionError, st, some send, []⟩
  | .resp c body =>
    let st1 := { st with time_of_last_request := send + dur }
    if 400 ≤ c ∧ c < 600 then
      ⟨.error (.httpError c), st1, some send, if c ∈ retryCodes then [c] else []⟩
    else if c = 200 then
      ⟨transform z body, st1, some send, []⟩
    else
      ⟨.ok none, st1, some send, [c]⟩

/-- Result of `TernaPandasClient.__init__`: the constructed state (or
the exception raised) and the number of HTTP calls performed. -/
structure InitOut where
  result : Except PyErr ClientState
  netCalls : Nat
deriving Repr

/-- Embedding of `TernaPandasClient.__init__` (lines 26-69): raises
`TypeError` when the API key or the API secret is `None`; otherwise
stores the credentials, an empty token slot expiring now, and a
last-request time one second in the past.  No HTTP call is made
(creating a `requests.Session` opens no connection). -/
def clientInit (api_key api_secret : Option String) (nowDT : Int)
    (nowM : ℚ) : InitOut :=
  if api_key = none then ⟨.error .typeError, 0⟩
  else if api_secret = none then ⟨.error .typeError, 0⟩
  else ⟨.ok ⟨api_key.getD "", api_secret.getD "", none, nowDT, nowM - 1⟩, 0⟩

/-- A concrete instance of the timezone model standing for
"Europe/Rome" around one fall-back transition: standard offset
UTC+60 min, DST offset UTC+120 min, ambiguous wall-clock window
starting at minute 120 of the local day. -/
def rome : TZ := ⟨60, 120, 120, by decide⟩

/-- The key by which index entries of a table are ordered: timestamp
entries compare by their UTC instant under the zone model `z`. -/
def idxKey (z : TZ) : IndexVal → Int
  | .default n => n
  | .ts l => z.instantOf l
  | .year _ => 0

/-- Concrete client state for evaluations: cached token `"tok"`
expiring at second 4000, last request at monotonic time 0. -/
def stFresh : ClientState := ⟨"k", "s", some "tok", 4000, 0⟩

/-- Concrete client state for evaluations: cached token `"tok"`
already expired (expiry at second 0), last request at monotonic 0. -/
def stStale : ClientState := ⟨"k", "s", some "tok", 0, 0⟩

/-- A successful token-exchange response carrying a fresh token. -/
def okTokenResp : HttpResponse := ⟨200, some "new", some 3600⟩

/-- A payload whose data array holds two rows with identical `Date`
values. -/
def payloadDup : Payload :=
  [("result", []),
   ("d", [[("Date", .date 0), ("v", .str "1")],
          [("Date", .date 0), ("v", .str "2")]])]

/-- The table the transformation produces from `payloadDup`. -/
def frameDup : Frame :=
  ⟨[("v", [.num 1, .num 2])], [.ts ⟨0, true⟩, .ts ⟨0, true⟩]⟩

/-- C2: for a naive datetime whose minute modulo 15 is a nonzero
`delta`, `_adjust_tz` shifts it backward by exactly
`delta + 15*(4-delta)` minutes and localizes with `ambiguous=False`;
for `delta > 4` that amount is negative, so the shift is forward. -/
theorem adjust_tz_misaligned (dt : Int) (h : dt % 60 % 15 ≠ 0) :
    adjust_tz dt = ⟨dt - (dt % 60 % 15 + 15 * (4 - dt % 60 % 15)), false⟩ ∧
    (4 < dt % 60 % 15 → dt < (adjust_tz dt).wall) := by
  constructor
  · simp [adjust_tz, h]
  · intro h4
    simp only [adjust_tz, if_neg h]
    omega

/-- Witness for `adjust_tz_misaligned` at `dt = 37` (minute 37,
`delta = 7`): the result is minute 75, a forward shift. -/
theorem adjust_tz_misaligned_witness :
    adjust_tz 37 = ⟨37 - (37 % 60 % 15 + 15 * (4 - 37 % 60 % 15)), false⟩ ∧
    (37 : Int) < (adjust_tz 37).wall :=
  ⟨(adjust_tz_misaligned 37 (by decide)).1,
   (adjust_tz_misaligned 37 (by decide)).2 (by decide)⟩

/-- C3: for a naive datetime on a quarter-hour boundary
(`delta = 0`), `_adjust_tz` localizes it unshifted with
`ambiguous=True`; under the fall-back model this resolves an
ambiguous wall time to the DST interpretation, the earlier of its two
UTC instants. -/
theorem adjust_tz_aligned (dt : Int) (z : TZ) (h : dt % 60 % 15 = 0) :
    adjust_tz dt = ⟨dt, true⟩ ∧
    (z.isAmbiguous dt →
      z.instantOf (adjust_tz dt) = dt - z.dstOffset ∧
      z.instantOf ⟨dt, true⟩ < z.instantOf ⟨dt, false⟩) := by
  have hadj : adjust_tz dt = ⟨dt, true⟩ := by simp [adjust_tz, h]
  refine ⟨hadj, fun hamb => ?_⟩
  have hlt := z.std_lt_dst
  rw [hadj]
  simp only [TZ.instantOf, TZ.localizeUTC, if_pos hamb]
  simp only [if_true, ite_true, ite_false, Bool.false_eq_true, if_false, true_and]
  omega

/-- Witness for `adjust_tz_aligned` at `dt = 150` (minute 30 of the
second hour) in the `rome` model, inside the ambiguous window. -/
theorem adjust_tz_aligned_witness :
    adjust_tz 150 = ⟨150, true⟩ ∧
    rome.instantOf (adjust_tz 150) = 150 - rome.dstOffset ∧
    rome.instantOf ⟨150, true⟩ < rome.instantOf ⟨150, false⟩ :=
  ⟨(adjust_tz_aligned 150 rome (by decide)).1,
   (adjust_tz_aligned 150 rome (by decide)).2 (by decide)⟩

/-- C1 (code bug): the cache guard of `_request_token` is inverted.
With a cached token whose expiry is 3600 s in the future the call
dispatches a POST and replaces the token, and with a token expired
4000 s ago it returns the stale cached token without any network
call — the opposite of the specified behaviour in both directions. -/
theorem request_token_guard_inverted :
    (request_token stFresh 400 10 0 (.ok okTokenResp)).sendTime = some 10 ∧
    (request_token stFresh 400 10 0 (.ok okTokenResp)).state.token = some "new" ∧
    (request_token stStale 4000 10 0 (.ok okTokenResp)).sendTime = none ∧
    (request_token stStale 4000 10 0 (.ok okTokenResp)).result = .ok (some "tok") := by
  have hne : ("tok" = "") = False := by simp
  refine ⟨?_, ?_, ?_, ?_⟩ <;>
    norm_num [request_token, stFresh, stStale, okTokenResp, tokenTruthy, throttleSend,
      rateLimit, hne]

/-- C4 (counterexample): a payload consisting of the status key
`result` alone has no data-bearing key, yet the transformation raises
an `IndexError` instead of returning `None`. -/
theorem transform_result_only_raises :
    transform rome [("result", [])] = .error .indexError := rfl

/-- C4 (amended): a payload in which the status key `result` is
absent makes the transformation return `None` without raising; only
that branch signals "no table". -/
theorem transform_missing_result_returns_none (z : TZ) (p : Payload)
    (h : "result" ∉ p.map Prod.fst) :
    transform z p = .ok none := by
  simp [transform, h]

/-- Witness for `transform_missing_result_returns_none` on a
one-key payload without `result`. -/
theorem transform_missing_result_witness :
    transform rome [("other", [])] = .ok none :=
  transform_missing_result_returns_none rome [("other", [])] (by simp)

/-- C9: construction fails (with `TypeError`) exactly when the API
key or the API secret is missing, and it performs no HTTP call. -/
theorem clientInit_validates_credentials (api_key api_secret : Option String)
    (nowDT : Int) (nowM : ℚ) :
    ((∃ st, (clientInit api_key api_secret nowDT nowM).result = .ok st) ↔
      (api_key ≠ none ∧ api_secret ≠ none)) ∧
    (clientInit api_key api_secret nowDT nowM).netCalls = 0 := by
  rcases api_key with _ | k <;> rcases api_secret with _ | s <;> simp [clientInit]

/-- Witness for `clientInit_validates_credentials`: with both
credentials present, construction succeeds with zero HTTP calls. -/
theorem clientInit_witness :
    (∃ st, (clientInit (some "k") (some "s") 0 0).result = .ok st) ∧
    (clientInit (some "k") (some "s") 0 0).netCalls = 0 :=
  ⟨(clientInit_validates_credentials (some "k") (some "s") 0 0).1.mpr
      ⟨by simp, by simp⟩,
   (clientInit_validates_credentials (some "k") (some "s") 0 0).2⟩

/-- C10: one `_request_token` call either leaves the cached token and
its expiry exactly as they were, or the POST came back with status
200 and the call returned that response's `access_token`; in
particular every failing call (transport error, raised HTTP status,
or missing `expires_in`) leaves the credential cache unchanged. -/
theorem request_token_failure_preserves_cache (st : ClientState) (nowDT : Int)
    (nowM dur : ℚ) (post : Except Unit HttpResponse) :
    ((request_token st nowDT nowM dur post).state.token = st.token ∧
     (request_token st nowDT nowM dur post).state.token_expiration
        = st.token_expiration) ∨
    (∃ r, post = .ok r ∧ r.status_code = 200 ∧
      (request_token st nowDT nowM dur post).result = .ok r.access_token) := by
  unfold request_token
  split
  · exact .inl ⟨rfl, rfl⟩
  · split
    · exact .inl ⟨rfl, rfl⟩
    · split
      · exact .inl ⟨rfl, rfl⟩
      · split
        · split
          · exact .inl ⟨rfl, rfl⟩
          · exact .inr ⟨_, rfl, by assumption, rfl⟩
        · exact .inl ⟨rfl, rfl⟩

/-- C6: the rate-limiter arithmetic guarantees two consecutive
dispatched calls are at least `rateLimit` apart (given that the
previous dispatch happened no later than its recorded completion and
the monotonic clock does not go backwards); both the data path and
the token path gate their call through `throttleSend` applied to the
same `time_of_last_request` field, and both record the completion
time of the call in that field immediately afterwards. -/
theorem rate_limiter_gate (last now prevSend : ℚ) (z : TZ) (st : ClientState)
    (nowDT : Int) (nowM dur : ℚ) (post : Except Unit HttpResponse)
    (out : GetOutcome) :
    (prevSend ≤ last → last ≤ now →
      prevSend + rateLimit ≤ throttleSend last now) ∧
    ((base_request_fetch z st nowM dur out).sendTime
        = some (throttleSend st.time_of_last_request nowM)) ∧
    (∀ c body, out = .resp c body →
      (base_request_fetch z st nowM dur out).state.time_of_last_request
        = throttleSend st.time_of_last_request nowM + dur) ∧
    (¬ (st.token_expiration + 5 < nowDT ∧ tokenTruthy st.token) →
      (request_token st nowDT nowM dur post).sendTime
          = some (throttleSend st.time_of_last_request nowM) ∧
      (∀ r, post = .ok r →
        (request_token st nowDT nowM dur post).state.time_of_last_request
          = throttleSend st.time_of_last_request nowM + dur)) := by
  refine ⟨?_, ?_, ?_, ?_⟩
  · intro h1 h2
    unfold throttleSend
    split
    · linarith
    · linarith
  · cases out with
    | netFail => rfl
    | resp c body =>
      simp only [base_request_fetch]
      split
      · rfl
      · split <;> rfl
  · intro c body hout
    subst hout
    simp only [base_request_fetch]
    split
    · rfl
    · split <;> rfl
  · intro hg
    constructor
    · unfold request_token
      rw [if_neg hg]
      split
      · rfl
      · split
        · rfl
        · split
          · split <;> rfl
          · rfl
    · intro r hr
      unfold request_token
      rw [if_neg hg]
      split
      · simp at hr
      · split
        · rfl
        · split
          · split <;> rfl
          · rfl

/-- Witness for `rate_limiter_gate`: with the previous dispatch at
monotonic 0 and a new call at monotonic 2 the next dispatch is at
least `1.1` later, and the data path records the completion time. -/
theorem rate_limiter_gate_witness :
    (0 : ℚ) + rateLimit ≤ throttleSend 0 2 ∧
    (base_request_fetch rome ⟨"k", "s", none, 0, 0⟩ 2 1
        (.resp 200 [])).state.time_of_last_request = throttleSend 0 2 + 1 := by
  have h := rate_limiter_gate 0 2 0 rome ⟨"k", "s", none, 0, 0⟩ 0 2 1
    (.error ()) (.resp 200 [])
  exact ⟨h.1 le_rfl (by norm_num), h.2.2.1 200 [] rfl⟩

/-- C7 (counterexample): a GET response with the non-success status
304 makes `_base_request` log and return `None` instead of raising an
error carrying that status. -/
theorem base_request_fetch_304 :
    (base_request_fetch rome stFresh 10 0 (.resp 304 [])).result = .ok none ∧
    (base_request_fetch rome stFresh 10 0 (.resp 304 [])).logged = [304] := by
  exact ⟨rfl, rfl⟩

/-- C7 (amended): a 4xx/5xx response makes `_base_request` raise an
error carrying that status, logging first exactly for
429/500/502/503/504; a 200 response feeds the parsed body to the
transformation; any other status logs and returns `None`; and exactly
one GET is dispatched, with no automatic retry. -/
theorem base_request_fetch_status_cases (z : TZ) (st : ClientState)
    (nowM dur : ℚ) (c : Nat) (body : Payload) :
    (400 ≤ c ∧ c < 600 →
      (base_request_fetch z st nowM dur (.resp c body)).result
          = .error (.httpError c) ∧
      (c ∈ retryCodes →
        (base_request_fetch z st nowM dur (.resp c body)).logged = [c])) ∧
    (c = 200 →
      (base_request_fetch z st nowM dur (.resp c body)).result
        = transform z body) ∧
    (¬ (400 ≤ c ∧ c < 600) → c ≠ 200 →
      (base_request_fetch z st nowM dur (.resp c body)).result = .ok none ∧
      (base_request_fetch z st nowM dur (.resp c body)).logged = [c]) ∧
    (base_request_fetch z st nowM dur (.resp c body)).sendTime
      = some (throttleSend st.time_of_last_request nowM) := by
  refine ⟨fun h4 => ?_, fun h2 => ?_, fun h4 h2 => ?_, ?_⟩
  · simp only [base_request_fetch, if_pos h4]
    exact ⟨by simp, fun hc => by simp [if_pos hc]⟩
  · subst h2
    simp only [base_request_fetch]
    norm_num
  · simp only [base_request_fetch, if_neg h4, if_neg h2]
    simp
  · simp only [base_request_fetch]
    split
    · rfl
    · split <;> rfl

/-- Witness for `base_request_fetch_status_cases` at status 503: the
call raises `HTTPError 503` after logging it. -/
theorem base_request_fetch_status_witness :
    (base_request_fetch rome stFresh 10 0 (.resp 503 [])).result
        = .error (.httpError 503) ∧
    (base_request_fetch rome stFresh 10 0 (.resp 503 [])).logged = [503] :=
  ⟨((base_request_fetch_status_cases rome stFresh 10 0 503 []).1 (by decide)).1,
   ((base_request_fetch_status_cases rome stFresh 10 0 503 []).1 (by decide)).2
     (by decide)⟩

/-- If `pd.to_numeric` fails on some cell of a column, the whole
column conversion fails. -/
theorem traverse_cells_eq_none :
    ∀ cells : List JValue, (∃ v ∈ cells, coerceCell v = none) →
      traverseCells cells = none := by
  intro cells
  induction cells with
  | nil => intro h; simp at h
  | cons a t ih =>
    intro h
    rcases h with ⟨v, hv, hnone⟩
    rcases List.mem_cons.mp hv with h1 | h2
    · subst h1
      simp [traverseCells, hnone]
    · have ht := ih ⟨v, h2, hnone⟩
      cases hca : coerceCell a <;> simp [traverseCells, hca, ht]

/-- If `pd.to_numeric` succeeds on every cell of a column, the column
conversion succeeds and each converted cell is the image of some
original cell. -/
theorem traverse_cells_eq_some :
    ∀ cells : List JValue, (∀ v ∈ cells, (coerceCell v).isSome) →
      ∃ cs, traverseCells cells = some cs ∧
        ∀ c ∈ cs, ∃ v ∈ cells, coerceCell v = some c := by
  intro cells
  induction cells with
  | nil => exact fun _ => ⟨[], rfl, by simp⟩
  | cons a t ih =>
    intro h
    obtain ⟨b, hb⟩ := Option.isSome_iff_exists.mp (h a (List.mem_cons_self a t))
    obtain ⟨cs, hcs, hmem⟩ := ih (fun v hv => h v (List.mem_cons_of_mem a hv))
    refine ⟨b :: cs, by simp [traverseCells, hb, hcs], ?_⟩
    intro c hc
    rcases List.mem_cons.mp hc with h1 | h2
    · exact ⟨a, List.mem_cons_self a t, by rw [← h1] at hb; exact hb⟩
    · obtain ⟨v, hv, hveq⟩ := hmem c h2
      exact ⟨v, List.mem_cons_of_mem a hv, hveq⟩

/-- C8: per-column numeric coercion: a column whose cells are all
integer-literal strings becomes a column of numbers; a column
containing any non-coercible cell is left exactly as it was; and in
every case the step returns a column — the conversion failure is
absorbed per column, never propagated. -/
theorem coerceCol_cases (cells : List JValue) :
    ((∀ v ∈ cells, ∃ s n, v = .str s ∧ parseNumStr s = some n) →
      ∀ c ∈ coerceCol cells, ∃ n, c = .num n) ∧
    ((∃ v ∈ cells, coerceCell v = none) → coerceCol cells = cells) ∧
    ((∃ cs, traverseCells cells = some cs ∧ coerceCol cells = cs) ∨
      (traverseCells cells = none ∧ coerceCol cells = cells)) := by
  refine ⟨?_, ?_, ?_⟩
  · intro hall c hc
    have hsome : ∀ v ∈ cells, (coerceCell v).isSome := by
      intro v hv
      obtain ⟨s, n, rfl, hs⟩ := hall v hv
      simp [coerceCell, hs]
    obtain ⟨cs, hcs, hmem⟩ := traverse_cells_eq_some cells hsome
    rw [coerceCol, hcs] at hc
    obtain ⟨v, hv, hvc⟩ := hmem c hc
    obtain ⟨s, n, rfl, hs⟩ := hall v hv
    refine ⟨n, ?_⟩
    have hcell : coerceCell (.str s) = some (.num n) := by simp [coerceCell, hs]
    rw [hcell] at hvc
    exact (Option.some_inj.mp hvc).symm
  · intro hex
    rw [coerceCol, traverse_cells_eq_none cells hex]
  · rw [coerceCol]
    cases hm : traverseCells cells with
    | none => exact .inr ⟨rfl, rfl⟩
    | some cs => exact .inl ⟨cs, rfl, rfl⟩

/-- Witness for `coerceCol_cases`: the all-numeric-string column
`["1", "2"]` becomes numeric, and the mixed column `["a", "1"]` is
left unchanged. -/
theorem coerceCol_cases_witness :
    (∀ c ∈ coerceCol [JValue.str "1", JValue.str "2"], ∃ n, c = JValue.num n) ∧
    coerceCol [JValue.str "a", JValue.str "1"] = [JValue.str "a", JValue.str "1"] :=
  ⟨(coerceCol_cases [JValue.str "1", JValue.str "2"]).1 (by
      intro v hv
      rcases List.mem_cons.mp hv with h | hv2
      · exact ⟨"1", 1, h, by decide⟩
      · rcases List.mem_cons.mp hv2 with h | h
        · exact ⟨"2", 2, h, by decide⟩
        · exact absurd h (List.not_mem_nil v)),
   (coerceCol_cases [JValue.str "a", JValue.str "1"]).2.1
     ⟨.str "a", by decide, by decide⟩⟩

/-- C5 (amended): for a payload carrying the status key whose first
data key holds rows that all have a parseable `Date` cell, the
transformation returns a table with exactly one index entry per row;
every entry is a reconstructed localized timestamp, the index is
sorted ascending by UTC instant, no `Date` column remains, and the
index is unique whenever the rows' reconstructed timestamps are
pairwise distinct (duplicate upstream timestamps survive into the
index, so uniqueness is conditional). -/
theorem transform_date_index (z : TZ) (p : Payload) (k : String)
    (rows : List Row) (t : List (String × List Row))
    (hres : "result" ∈ p.map Prod.fst)
    (hfilter : p.filter (fun kv => kv.1 != "result") = (k, rows) :: t)
    (hdate : "Date" ∈ colsOf rows)
    (hok : datesOk rows = true) :
    ∃ f, transform z p = .ok (some f) ∧
      f.index.length = rows.length ∧
      "Date" ∉ f.cols.map Prod.fst ∧
      (∀ i ∈ f.index, ∃ r ∈ rows, i = .ts (adjust_tz ((rowDate r).getD 0))) ∧
      f.index.Pairwise (fun i j => idxKey z i ≤ idxKey z j) ∧
      ((rows.map (dateKeyD z)).Pairwise (fun a b => a ≠ b) → f.index.Nodup) := by
  refine ⟨⟨((colsOf rows).filter (fun c => c != "Date")).map
      (fun c => (c, coerceCol ((List.insertionSort (rowLE z) rows).map
        (fun r => getCell r c)))),
      (List.insertionSort (rowLE z) rows).map
        (fun r => IndexVal.ts (adjust_tz ((rowDate r).getD 0)))⟩,
    ?_, ?_, ?_, ?_, ?_, ?_⟩
  · simp only [transform, hres, hfilter, hdate, hok, if_true, ite_true]
  · exact (List.perm_insertionSort (rowLE z) rows).length_eq.symm ▸ (by simp)
  · simp
  · intro i hi
    rw [List.mem_map] at hi
    obtain ⟨r, hr, rfl⟩ := hi
    exact ⟨r, ((List.perm_insertionSort (rowLE z) rows).mem_iff).mp hr, rfl⟩
  · rw [List.pairwise_map]
    exact (List.sorted_insertionSort (rowLE z) rows).imp (fun h => h)
  · intro hkeys
    have hperm := List.perm_insertionSort (rowLE z) rows
    have hkeys2 : ((List.insertionSort (rowLE z) rows).map
        (dateKeyD z)).Pairwise (fun a b => a ≠ b) :=
      (List.Perm.pairwise_iff (fun h => Ne.symm h) (hperm.map (dateKeyD z))).mpr hkeys
    have h3 := List.pairwise_map.mp hkeys2
    refine List.pairwise_map.mpr (List.Pairwise.imp ?_ h3)
    intro a b hne heq
    exact hne (congrArg (idxKey z) heq)

/-- Witness for `transform_date_index` on a concrete two-row
payload. -/
theorem transform_date_index_witness :
    ∃ f, transform rome payloadDup = .ok (some f) ∧ f.index.length = 2 ∧
      "Date" ∉ f.cols.map Prod.fst := by
  obtain ⟨f, h1, h2, h3, _, _, _⟩ := transform_date_index rome payloadDup "d"
    [[("Date", .date 0), ("v", .str "1")], [("Date", .date 0), ("v", .str "2")]]
    [] (by decide) (by decide) (by decide) (by decide)
  exact ⟨f, h1, by simpa using h2, h3⟩

/-- C5 (counterexample): two rows with the same `Date` value survive
into the index, so the index of a `Date`-indexed table is not always
unique. -/
theorem transform_duplicate_dates :
    transform rome payloadDup = .ok (some frameDup) ∧
    ¬ frameDup.index.Nodup :=
  ⟨rfl, by decide⟩

end Terna
